import Mathlib

/-!
Shallow embedding of the dingtalk-alert-server repository
(`src/server/server.go` and `src/main.go`) and verification of the
specification's claims about it.

Modelling conventions:
* Go `map[string]string` values are association lists `List (String × String)`
  with first-match lookup; a Go map has unique keys, so first-match lookup is
  an exact model, and list order stands in for Go's unspecified iteration
  order (the spec declares any order acceptable).
* `time.Time` values are abstracted by the string that
  `StartsAt.Format("Jan 2, 2006 at 3:04pm (MST)")` produces for them: the
  claims only concern where that formatted text is placed, never how the
  formatting itself works.
* Go `errors.New "…"` results are modelled by the inductive `DispatchError`,
  each constructor carrying the literal Go error text and tagged with the
  spec's error taxonomy (MissingField / UnrecognizedAlertType /
  TransportError).
* The outbound HTTP POST (`client.Do`) is modelled by a `PostOutcome`
  parameter: either a transport error or a received response with a status
  code.  `json.Marshal` cannot fail for the `DingTalkMarkdown` struct and
  `http.NewRequest` only fails on malformed URLs, so both are modelled as
  always succeeding; the Boolean returned alongside the dispatch result
  records whether execution reached the outbound POST.
-/

/-- Go map lookup `m[k]` with the comma-ok form: `some v` iff the key is
present.  First-match lookup over the association list. -/
def lookupKey (key : String) : List (String × String) → Option String
  | [] => none
  | kv :: rest => if kv.1 = key then some kv.2 else lookupKey key rest

/-- Go map read `m[k]` without the comma-ok form: the zero value `""` when
the key is absent. -/
def getLabel (labels : List (String × String)) (key : String) : String :=
  (lookupKey key labels).getD ""

/-- `server.Alert` from `src/server/server.go`. -/
structure Alert where
  status : String
  labels : List (String × String)
  annotations : List (String × String)
  startsAt : String
  endsAt : String
  generatorURL : String
  deriving Repr, DecidableEq

/-- `server.Message` from `src/server/server.go` (the AlertGroupMessage). -/
structure Message where
  version : String
  groupKey : String
  status : String
  receiver : String
  groupLabels : List (String × String)
  commonLabels : List (String × String)
  commonAnnotations : List (String × String)
  externalURL : String
  alerts : List Alert
  deriving Repr, DecidableEq

/-- `server.At` from `src/server/server.go`. -/
structure At where
  atMobiles : List String
  isAtAll : Bool
  deriving Repr, DecidableEq

/-- `server.Markdown` from `src/server/server.go`. -/
structure Markdown where
  title : String
  text : String
  deriving Repr, DecidableEq

/-- `server.DingTalkMarkdown` from `src/server/server.go` (the
OutboundEnvelope).  The Go field `At` is named `atMention` here because
`at` is reserved in Lean. -/
structure DingTalkMarkdown where
  msgType : String
  atMention : At
  markdown : Markdown
  deriving Repr, DecidableEq

instance {ε α : Type} [DecidableEq ε] [DecidableEq α] : DecidableEq (Except ε α) := fun x y =>
  match x, y with
  | .ok a, .ok b => if h : a = b then .isTrue (by rw [h]) else .isFalse (by simp [h])
  | .error a, .error b => if h : a = b then .isTrue (by rw [h]) else .isFalse (by simp [h])
  | .ok _, .error _ => .isFalse (by simp)
  | .error _, .ok _ => .isFalse (by simp)

/-- The errors `SendToDingtalk` can return, tagged with the spec's taxonomy.
Each constructor carries the literal text of the corresponding Go
`errors.New`. -/
inductive DispatchError where
  | missingField (goText : String)
  | unrecognizedAlertType
  | transportError (goText : String)
  deriving Repr, DecidableEq

/-- The Go error text surfaced by `err.Error()` (used by the handler's
`fmt.Fprint(w, err)`). -/
def DispatchError.message : DispatchError → String
  | .missingField s => s
  | .unrecognizedAlertType => "invalid alert type"
  | .transportError s => s

/-- The validation-and-description switch of `SendToDingtalk`
(`src/server/server.go` lines 61-161): the alert_type presence check
followed by the `switch alertMessage.CommonLabels["alert_type"]`.  Each
branch checks its required keys in source order and composes the
`description` string with the exact format strings of the source. -/
def composeDescription (m : Message) : Except DispatchError String :=
  match lookupKey "alert_type" m.commonLabels with
  | none => .error (.missingField "alert type is null")
  | some t =>
    if t = "event" then
      match lookupKey "event_type" m.commonLabels with
      | none => .error (.missingField "event_type is null in commonLabels")
      | some _ =>
        match lookupKey "resource_kind" m.groupLabels with
        | none => .error (.missingField "resource kind is null in groupLabels")
        | some _ =>
          .ok ("\n > " ++ getLabel m.commonLabels "event_type" ++ " event of "
            ++ getLabel m.groupLabels "resource_kind" ++ " occuored\n\n")
    else if t = "systemService" then
      match lookupKey "component_name" m.groupLabels with
      | none => .error (.missingField "component name is null in groupLabels")
      | some _ =>
        .ok ("\n > The system component " ++ getLabel m.groupLabels "event_type"
          ++ " is not running\n\n")
    else if t = "nodeHealthy" then
      match lookupKey "node_name" m.groupLabels with
      | none => .error (.missingField "node name name is null in groupLabels")
      | some _ =>
        .ok ("\n > The kubelet on the node " ++ getLabel m.groupLabels "node_name"
          ++ " is not healthy\n\n")
    else if t = "nodeCPU" then
      match lookupKey "node_name" m.groupLabels with
      | none => .error (.missingField "node name name is null in groupLabels")
      | some _ =>
        match lookupKey "cpu_threshold" m.commonLabels with
        | none => .error (.missingField "cpu threshold name is null in commonLabels")
        | some _ =>
          .ok ("\n > The CPU usage on the node " ++ getLabel m.groupLabels "node_name"
            ++ " is over " ++ getLabel m.commonLabels "cpu_threshold" ++ "%\n\n")
    else if t = "nodeMemory" then
      match lookupKey "node_name" m.groupLabels with
      | none => .error (.missingField "node name name is null in groupLabels")
      | some _ =>
        match lookupKey "mem_threshold" m.commonLabels with
        | none => .error (.missingField "mem threshold name is null in commonLabels")
        | some _ =>
          .ok ("\n > The memory usage on the node " ++ getLabel m.groupLabels "node_name"
            ++ " is over " ++ getLabel m.commonLabels "mem_threshold" ++ "%\n\n")
    else if t = "podNotScheduled" then
      match lookupKey "pod_name" m.groupLabels with
      | none => .error (.missingField "pod name name is null in groupLabels")
      | some _ =>
        let pod :=
          match lookupKey "namespace" m.groupLabels with
          | some ns => ns ++ getLabel m.groupLabels "pod_name"
          | none => getLabel m.groupLabels "pod_name"
        .ok ("\n > The Pod " ++ pod ++ " is not scheduled\n\n")
    else if t = "podNotRunning" then
      match lookupKey "pod_name" m.groupLabels with
      | none => .error (.missingField "pod name name is null in groupLabels")
      | some _ =>
        let pod :=
          match lookupKey "namespace" m.groupLabels with
          | some ns => ns ++ getLabel m.groupLabels "pod_name"
          | none => getLabel m.groupLabels "pod_name"
        .ok ("\n > The Pod " ++ pod ++ " is not running\n\n")
    else if t = "podRestarts" then
      match lookupKey "pod_name" m.groupLabels with
      | none => .error (.missingField "pod name name is null in groupLabels")
      | some _ =>
        match lookupKey "restart_times" m.commonLabels with
        | none => .error (.missingField "restart times is null in commonLabels")
        | some _ =>
          match lookupKey "restart_interval" m.commonLabels with
          | none => .error (.missingField "restart interval is null in commonLabels")
          | some _ =>
            let pod :=
              match lookupKey "namespace" m.groupLabels with
              | some ns => ns ++ getLabel m.groupLabels "pod_name"
              | none => getLabel m.groupLabels "pod_name"
            .ok ("\n > The Pod " ++ pod ++ " restarts "
              ++ getLabel m.commonLabels "restart_times" ++ " times in "
              ++ getLabel m.commonLabels "restart_interval" ++ " sec\n\n")
    else if t = "workload" then
      match lookupKey "workload_name" m.groupLabels with
      | none => .error (.missingField "workload name is null in groupLabels")
      | some _ =>
        match lookupKey "available_percentage" m.commonLabels with
        | none => .error (.missingField "available percentage is null in commonLabels")
        | some _ =>
          let workload :=
            match lookupKey "workload_namespace" m.groupLabels with
            | some ns => ns ++ getLabel m.groupLabels "workload_name"
            | none => getLabel m.groupLabels "workload_name"
          .ok ("\n > The workload " ++ workload ++ " has available replicas less than "
            ++ getLabel m.commonLabels "available_percentage" ++ "%\n\n")
    else if t = "metric" then
      match lookupKey "alert_name" m.commonLabels with
      | none => .error (.missingField "alert name is null in commonLabels")
      | some _ =>
        .ok ("\n > The metric " ++ getLabel m.commonLabels "alert_name"
          ++ " crossed the threshold\n\n")
    else
      .error .unrecognizedAlertType

/-- One pass of the per-alert label loop body: `- k : v\n` for each label
pair, in iteration order (modelled as list order). -/
def renderLabels : List (String × String) → String
  | [] => ""
  | kv :: rest => "- " ++ kv.1 ++ " : " ++ kv.2 ++ "\n" ++ renderLabels rest

/-- The detail block one firing alert appends (`src/server/server.go` lines
169-174): separator, label pairs, formatted start time. -/
def renderAlertDetail (a : Alert) : String :=
  "-----\n" ++ renderLabels a.labels ++ "- 起始时间：" ++ a.startsAt ++ "\n"

/-- The alert loop (`src/server/server.go` lines 165-175): alerts whose
status is not "firing" are skipped by `continue`. -/
def renderAlerts : List Alert → String
  | [] => ""
  | a :: rest =>
    (if a.status = "firing" then renderAlertDetail a else "") ++ renderAlerts rest

/-- The pure part of `SendToDingtalk` (`src/server/server.go` lines 55-187):
validation, rendering and construction of the `DingTalkMarkdown` envelope,
up to but not including serialization and the outbound POST. -/
def sendToDingtalkPure (alertMessage : Message) (atMobiles : List String)
    (isAtAll : Bool) : Except DispatchError DingTalkMarkdown :=
  let groupKey := getLabel alertMessage.commonLabels "group_id"
  let status := alertMessage.status
  let header := "## HCaaS告警\n\n ### 告警组：" ++ groupKey ++ "（状态：" ++ status ++ ")\n\n"
  match composeDescription alertMessage with
  | .error e => .error e
  | .ok description =>
    let message := header ++ description ++ renderAlerts alertMessage.alerts
    .ok { msgType := "markdown"
          atMention := { atMobiles := atMobiles, isAtAll := isAtAll }
          markdown := { title := "HCaaS 告警组：" ++ groupKey ++ "（状态：" ++ status ++ "）"
                        text := message } }

/-- Outcome of the outbound `client.Do(req)` call: a transport failure, or a
received response carrying its status code. -/
inductive PostOutcome where
  | transportFailure (goText : String)
  | response (statusCode : Nat)
  deriving Repr, DecidableEq

/-- `SendToDingtalk` (`src/server/server.go` lines 55-219).  The returned
Boolean records whether the outbound POST was reached.  A received response
with a non-200 status is only logged (lines 212-214) and the function still
returns success (`nil`). -/
def sendToDingtalk (alertMessage : Message) (atMobiles : List String)
    (isAtAll : Bool) (net : PostOutcome) : Except DispatchError Unit × Bool :=
  match sendToDingtalkPure alertMessage atMobiles isAtAll with
  | .error e => (.error e, false)
  | .ok _envelope =>
    match net with
    | .transportFailure goText => (.error (.transportError goText), true)
    | .response _statusCode => (.ok (), true)

/-- Parsed query/form parameters: a multimap, as Go's `url.Values`. -/
def Form := List (String × List String)

/-- Lookup of `req.Form[k]` with the comma-ok form. -/
def formLookup (key : String) : List (String × List String) → Option (List String)
  | [] => none
  | kv :: rest => if kv.1 = key then some kv.2 else formLookup key rest

/-- Go's `strconv.ParseBool`: accepts exactly these twelve literals, errors
otherwise (and `ReceiveAndSend` ignores the error, keeping the zero value
`false`). -/
def parseBoolGo (s : String) : Except String Bool :=
  if s ∈ ["1", "t", "T", "TRUE", "true", "True"] then .ok true
  else if s ∈ ["0", "f", "F", "FALSE", "false", "False"] then .ok false
  else .error "invalid syntax"

/-- The observable outcome of one `ReceiveAndSend` call:
`explicitStatus = none` means no `WriteHeader` call was made (Go then sends
the default 200); `body` is everything written via `fmt.Fprint(w, ·)`;
`dispatcherInvoked` records whether `SendToDingtalk` was called and
`postAttempted` whether the outbound POST was reached. -/
structure HandlerResult where
  explicitStatus : Option Nat
  body : String
  dispatcherInvoked : Bool
  postAttempted : Bool
  deriving Repr, DecidableEq

/-- `ReceiveAndSend` (`src/server/server.go` lines 221-263).
`bodyRead` is the outcome of `ioutil.ReadAll` followed by `json.Unmarshal`:
a read error yields `.error`, while a decode error is absorbed and yields
`.ok` with the zero-valued `Message` (the unmarshal error is discarded at
line 233).  `formParse` is the outcome of `req.ParseForm()`.  The slice
`req.Form["webhook"][0]` is modelled with `headD ""`; `url.Values` never
maps a present key to an empty slice. -/
def receiveAndSend (bodyRead : Except String Message)
    (formParse : Except String (List (String × List String)))
    (net : PostOutcome) : HandlerResult :=
  match bodyRead with
  | .error e => { explicitStatus := some 500, body := e
                  dispatcherInvoked := false, postAttempted := false }
  | .ok alertMessage =>
    match formParse with
    | .error e => { explicitStatus := some 500, body := e
                    dispatcherInvoked := false, postAttempted := false }
    | .ok form =>
      match formLookup "webhook" form with
      | none => { explicitStatus := none, body := ""
                  dispatcherInvoked := false, postAttempted := false }
      | some webhookVals =>
        match formLookup "isatall" form with
        | none => { explicitStatus := none, body := ""
                    dispatcherInvoked := false, postAttempted := false }
        | some isatallVals =>
          let _webhook := webhookVals.headD ""
          let atmobiles := (formLookup "atmobiles" form).getD []
          let isatall :=
            match parseBoolGo (isatallVals.headD "") with
            | .ok b => b
            | .error _ => false
          match sendToDingtalk alertMessage atmobiles isatall net with
          | (.error e, post) => { explicitStatus := some 500, body := e.message
                                  dispatcherInvoked := true, postAttempted := post }
          | (.ok _, post) => { explicitStatus := none, body := "Alert sent successfully"
                               dispatcherInvoked := true, postAttempted := post }

/-- The recognized alert_type values, as enumerated by the spec (§4.1) and
by the cases of the source's switch. -/
def recognizedTypes : List String :=
  ["event", "systemService", "nodeHealthy", "nodeCPU", "nodeMemory",
   "podNotScheduled", "podNotRunning", "podRestarts", "workload", "metric"]

/-- The required-keys table of spec §4.1.  `true` marks a key of
commonLabels, `false` a key of groupLabels. -/
def specRequiredKeys (t : String) : List (Bool × String) :=
  if t = "event" then [(true, "event_type"), (false, "resource_kind")]
  else if t = "systemService" then [(false, "component_name")]
  else if t = "nodeHealthy" then [(false, "node_name")]
  else if t = "nodeCPU" then [(false, "node_name"), (true, "cpu_threshold")]
  else if t = "nodeMemory" then [(false, "node_name"), (true, "mem_threshold")]
  else if t = "podNotScheduled" then [(false, "pod_name")]
  else if t = "podNotRunning" then [(false, "pod_name")]
  else if t = "podRestarts" then
    [(false, "pod_name"), (true, "restart_times"), (true, "restart_interval")]
  else if t = "workload" then [(false, "workload_name"), (true, "available_percentage")]
  else if t = "metric" then [(true, "alert_name")]
  else []

/-- Lookup of one table entry in the appropriate label map of a message. -/
def lookupRequired (m : Message) (rk : Bool × String) : Option String :=
  if rk.1 then lookupKey rk.2 m.commonLabels else lookupKey rk.2 m.groupLabels

/-- The validation outcome of a dispatch: the error `SendToDingtalk` would
return from its validation phase, or `none` when validation passes. -/
def validationOutcome (m : Message) : Option DispatchError :=
  match composeDescription m with
  | .ok _ => none
  | .error e => some e

/-- The description templates of spec §4.1's table, interpolated with the
values of the message's label maps (Go zero-value `""` when a key is
absent), with one amendment forced by the source: the event template ends
in the source's spelling "occuored", not "occurred".  The systemService row
follows the table's parenthetical: the displayed value is sourced from the
`event_type` key.  `specNsName` is the table's "namespace?+name"
convention. -/
def specNsName (gl : List (String × String)) (nsKey nameKey : String) : String :=
  match lookupKey nsKey gl with
  | some ns => ns ++ getLabel gl nameKey
  | none => getLabel gl nameKey

/-- See `specNsName`; this is the spec-side table of description templates,
one row per recognized alert_type. -/
def specTemplate (t : String) (m : Message) : String :=
  if t = "event" then
    getLabel m.commonLabels "event_type" ++ " event of "
      ++ getLabel m.groupLabels "resource_kind" ++ " occuored"
  else if t = "systemService" then
    "The system component " ++ getLabel m.groupLabels "event_type" ++ " is not running"
  else if t = "nodeHealthy" then
    "The kubelet on the node " ++ getLabel m.groupLabels "node_name" ++ " is not healthy"
  else if t = "nodeCPU" then
    "The CPU usage on the node " ++ getLabel m.groupLabels "node_name"
      ++ " is over " ++ getLabel m.commonLabels "cpu_threshold" ++ "%"
  else if t = "nodeMemory" then
    "The memory usage on the node " ++ getLabel m.groupLabels "node_name"
      ++ " is over " ++ getLabel m.commonLabels "mem_threshold" ++ "%"
  else if t = "podNotScheduled" then
    "The Pod " ++ specNsName m.groupLabels "namespace" "pod_name" ++ " is not scheduled"
  else if t = "podNotRunning" then
    "The Pod " ++ specNsName m.groupLabels "namespace" "pod_name" ++ " is not running"
  else if t = "podRestarts" then
    "The Pod " ++ specNsName m.groupLabels "namespace" "pod_name" ++ " restarts "
      ++ getLabel m.commonLabels "restart_times" ++ " times in "
      ++ getLabel m.commonLabels "restart_interval" ++ " sec"
  else if t = "workload" then
    "The workload " ++ specNsName m.groupLabels "workload_namespace" "workload_name"
      ++ " has available replicas less than "
      ++ getLabel m.commonLabels "available_percentage" ++ "%"
  else if t = "metric" then
    "The metric " ++ getLabel m.commonLabels "alert_name" ++ " crossed the threshold"
  else ""

/-- Spec-side reading of §4.1 step 4: the concatenation, in sequence order,
of one detail block per listed alert. -/
def specFiringBlocks : List Alert → String
  | [] => ""
  | a :: rest => renderAlertDetail a ++ specFiringBlocks rest

/-- Total extractor for the envelope title of a dispatch result (empty
string on a validation error). -/
def envelopeTitle (r : Except DispatchError DingTalkMarkdown) : String :=
  match r with
  | .ok p => p.markdown.title
  | .error _ => ""

/-- Total extractor for the envelope body of a dispatch result. -/
def envelopeText (r : Except DispatchError DingTalkMarkdown) : String :=
  match r with
  | .ok p => p.markdown.text
  | .error _ => ""

/-- A well-formed metric alert-group message used as a concrete input by
several witnesses; it matches the spec's §8 scenario. -/
def exMetricMsg : Message :=
  { version := "4", groupKey := "gk", status := "firing", receiver := "r"
    groupLabels := []
    commonLabels := [("alert_type", "metric"), ("alert_name", "cpu_spike"), ("group_id", "g1")]
    commonAnnotations := [], externalURL := ""
    alerts :=
      [{ status := "firing", labels := [("severity", "critical")], annotations := []
         startsAt := "Jan 2, 2021 at 3:04pm (UTC)", endsAt := "", generatorURL := "" },
       { status := "resolved", labels := [("severity", "warning")], annotations := []
         startsAt := "Jan 3, 2021 at 3:04pm (UTC)", endsAt := "", generatorURL := "" }] }

/-- A concrete event message whose description exhibits the source's
"occuored" spelling. -/
def exEventMsg : Message :=
  { version := "4", groupKey := "gk", status := "firing", receiver := "r"
    groupLabels := [("resource_kind", "Pod")]
    commonLabels := [("alert_type", "event"), ("event_type", "grow")]
    commonAnnotations := [], externalURL := "", alerts := [] }

/-- A concrete message whose `groupKey` field ("A") differs from
`commonLabels["group_id"]` ("B"): the rendered title interpolates the
latter. -/
def exGroupKeyMsg : Message :=
  { version := "4", groupKey := "A", status := "firing", receiver := "r"
    groupLabels := []
    commonLabels := [("alert_type", "metric"), ("alert_name", "x"), ("group_id", "B")]
    commonAnnotations := [], externalURL := "", alerts := [] }

example : composeDescription
    { version := "", groupKey := "", status := "firing", receiver := ""
      groupLabels := [], commonLabels := [("alert_type", "metric"), ("alert_name", "cpu_spike")]
      commonAnnotations := [], externalURL := "", alerts := [] }
    = .ok "\n > The metric cpu_spike crossed the threshold\n\n" := by decide

/-- A valid systemService message that carries no `event_type` key: its
description interpolates the empty string. -/
def exSystemServiceMsg : Message :=
  { version := "4", groupKey := "gk", status := "firing", receiver := "r"
    groupLabels := [("component_name", "etcd")]
    commonLabels := [("alert_type", "systemService"), ("group_id", "g1")]
    commonAnnotations := [], externalURL := "", alerts := [] }

/-- An event message missing its required `event_type` key. -/
def exMissingKeyMsg : Message :=
  { version := "4", groupKey := "gk", status := "firing", receiver := "r"
    groupLabels := [("resource_kind", "Pod")]
    commonLabels := [("alert_type", "event")]
    commonAnnotations := [], externalURL := "", alerts := [] }

/-- A message whose alert_type is outside the recognized set. -/
def exBadTypeMsg : Message :=
  { version := "4", groupKey := "gk", status := "firing", receiver := "r"
    groupLabels := [], commonLabels := [("alert_type", "bogus")]
    commonAnnotations := [], externalURL := "", alerts := [] }

/-- A podNotScheduled message with both `namespace` and `pod_name`
present. -/
def exPodMsg : Message :=
  { version := "4", groupKey := "gk", status := "firing", receiver := "r"
    groupLabels := [("namespace", "ns"), ("pod_name", "pod1")]
    commonLabels := [("alert_type", "podNotScheduled")]
    commonAnnotations := [], externalURL := "", alerts := [] }

/-- The zero-valued `Message`, as produced by a failed `json.Unmarshal`. -/
def zeroMsg : Message :=
  { version := "", groupKey := "", status := "", receiver := ""
    groupLabels := [], commonLabels := [], commonAnnotations := []
    externalURL := "", alerts := [] }

/-- `exMetricMsg` with a different group key and no alerts: identical
commonLabels and groupLabels, different everything else. -/
def exMetricMsgVar : Message :=
  { exMetricMsg with groupKey := "other", status := "resolved", alerts := [] }

/-- Total extractor for the envelope of a successful dispatch (a dummy
envelope on error). -/
def forceOk (r : Except DispatchError DingTalkMarkdown) : DingTalkMarkdown :=
  match r with
  | .ok p => p
  | .error _ =>
    { msgType := "", atMention := { atMobiles := [], isAtAll := false }
      markdown := { title := "", text := "" } }

/-- Strings with equal character data are equal. -/
theorem strEqOfData {s t : String} (h : s.data = t.data) : s = t := by
  cases s; cases t; exact congrArg String.mk h

/-- C3: an alert_type value outside the recognized set makes dispatch fail
with UnrecognizedAlertType, and the outbound POST is never reached. -/
theorem C3_unrecognized_alert_type (m : Message) (am : List String) (ia : Bool)
    (net : PostOutcome) (t : String)
    (ht : lookupKey "alert_type" m.commonLabels = some t)
    (hmem : t ∉ recognizedTypes) :
    sendToDingtalk m am ia net = (.error .unrecognizedAlertType, false) := by
  simp only [recognizedTypes, List.mem_cons, List.not_mem_nil, or_false, not_or] at hmem
  obtain ⟨h1, h2, h3, h4, h5, h6, h7, h8, h9, h10⟩ := hmem
  simp [sendToDingtalk, sendToDingtalkPure, composeDescription, ht,
    h1, h2, h3, h4, h5, h6, h7, h8, h9, h10]

theorem C3_witness :
    sendToDingtalk exBadTypeMsg [] false (.response 200) = (.error .unrecognizedAlertType, false) :=
  C3_unrecognized_alert_type exBadTypeMsg [] false (.response 200) "bogus" (by decide) (by decide)

/-- C5: for alert_type "systemService" with `component_name` present,
validation passes and the description interpolates the value of
`groupLabels["event_type"]` (the Go zero value `""` when that key is
absent), framed by the source's markdown quote decoration. -/
theorem C5_system_service_event_type (m : Message)
    (ht : lookupKey "alert_type" m.commonLabels = some "systemService")
    (hc : lookupKey "component_name" m.groupLabels ≠ none) :
    composeDescription m =
      .ok ("\n > The system component " ++ getLabel m.groupLabels "event_type"
        ++ " is not running\n\n") := by
  obtain ⟨v, hv⟩ := Option.ne_none_iff_exists'.mp hc
  simp [composeDescription, ht, hv]

theorem C5_witness :
    composeDescription exSystemServiceMsg =
      .ok ("\n > The system component "
        ++ getLabel exSystemServiceMsg.groupLabels "event_type" ++ " is not running\n\n") :=
  C5_system_service_event_type exSystemServiceMsg (by decide) (by decide)

/-- C8: whenever the outbound POST is reached and a response comes back,
dispatch returns success regardless of the response's status code; the
non-200 case is only logged. -/
theorem C8_any_response_is_success (m : Message) (am : List String) (ia : Bool)
    (code : Nat)
    (h : (sendToDingtalk m am ia (.response code)).2 = true) :
    sendToDingtalk m am ia (.response code) = (.ok (), true) := by
  unfold sendToDingtalk at h ⊢
  cases hc : sendToDingtalkPure m am ia with
  | error e => rw [hc] at h; simp at h
  | ok p => rfl

theorem C8_witness :
    sendToDingtalk exMetricMsg [] false (.response 503) = (.ok (), true) :=
  C8_any_response_is_success exMetricMsg [] false 503 (by decide)

/-- C9: when the `webhook` or the `isatall` parameter is absent (and body
read and form parsing succeeded), the handler returns with no dispatch, an
empty body and no explicit status code. -/
theorem C9_missing_param_silent_return (m : Message)
    (form : List (String × List String)) (net : PostOutcome)
    (h : formLookup "webhook" form = none ∨ formLookup "isatall" form = none) :
    receiveAndSend (.ok m) (.ok form) net =
      { explicitStatus := none, body := ""
        dispatcherInvoked := false, postAttempted := false } := by
  rcases h with h | h
  · simp [receiveAndSend, h]
  · cases hw : formLookup "webhook" form with
    | none => simp [receiveAndSend, hw]
    | some vs => simp [receiveAndSend, hw, h]

theorem C9_witness :
    receiveAndSend (.ok zeroMsg) (.ok [("isatall", ["true"])]) (.response 200) =
      { explicitStatus := none, body := ""
        dispatcherInvoked := false, postAttempted := false } :=
  C9_missing_param_silent_return zeroMsg [("isatall", ["true"])] (.response 200)
    (Or.inl (by decide))

/-- C10: the validation outcome of a dispatch depends only on the
commonLabels and groupLabels maps; the alerts sequence, the groupKey field
and every other field are irrelevant to it. -/
theorem C10_validation_depends_only_on_label_maps (m1 m2 : Message)
    (hc : m1.commonLabels = m2.commonLabels) (hg : m1.groupLabels = m2.groupLabels) :
    validationOutcome m1 = validationOutcome m2 := by
  have key : composeDescription m1 = composeDescription m2 := by
    unfold composeDescription
    rw [hc, hg]
  simp [validationOutcome, key]

theorem C10_witness : validationOutcome exMetricMsg = validationOutcome exMetricMsgVar :=
  C10_validation_depends_only_on_label_maps exMetricMsg exMetricMsgVar (by decide) (by decide)

/-- The alert loop renders, in order, exactly one detail block per alert
whose status is "firing" and nothing for the others. -/
theorem renderAlerts_eq_filter (l : List Alert) :
    renderAlerts l = specFiringBlocks (l.filter fun a => a.status == "firing") := by
  induction l with
  | nil => rfl
  | cons a rest ih =>
    by_cases h : a.status = "firing"
    · simp [renderAlerts, List.filter_cons, h, specFiringBlocks, ih]
    · simp [renderAlerts, List.filter_cons, h, specFiringBlocks, ih, String.empty_append]

/-- C4: the rendered body ends with the detail blocks of exactly those
alerts whose own status is "firing", in sequence order; alerts with any
other status contribute nothing. -/
theorem C4_only_firing_alerts_render (m : Message) (am : List String) (ia : Bool)
    (p : DingTalkMarkdown)
    (hok : sendToDingtalkPure m am ia = .ok p) :
    (∃ pre, p.markdown.text = pre ++ renderAlerts m.alerts) ∧
    renderAlerts m.alerts = specFiringBlocks (m.alerts.filter fun a => a.status == "firing") := by
  refine ⟨?_, renderAlerts_eq_filter m.alerts⟩
  unfold sendToDingtalkPure at hok
  cases hd : composeDescription m with
  | error e => rw [hd] at hok; simp at hok
  | ok d =>
    rw [hd] at hok
    simp only [Except.ok.injEq] at hok
    subst hok
    exact ⟨_, rfl⟩

theorem C4_witness :
    (∃ pre, (forceOk (sendToDingtalkPure exMetricMsg [] false)).markdown.text
      = pre ++ renderAlerts exMetricMsg.alerts) ∧
    renderAlerts exMetricMsg.alerts =
      specFiringBlocks (exMetricMsg.alerts.filter fun a => a.status == "firing") :=
  C4_only_firing_alerts_render exMetricMsg [] false
    (forceOk (sendToDingtalkPure exMetricMsg [] false)) (by decide)

/-- C6: for alert_type "podNotScheduled" with `pod_name` present, the
rendered body contains the direct concatenation of the namespace value and
the pod name when `namespace` is present, and contains the pod name framed
by the template text alone when it is absent. -/
theorem C6_namespace_concatenation (m : Message) (am : List String) (ia : Bool)
    (p : DingTalkMarkdown) (pod : String)
    (ht : lookupKey "alert_type" m.commonLabels = some "podNotScheduled")
    (hp : lookupKey "pod_name" m.groupLabels = some pod)
    (hok : sendToDingtalkPure m am ia = .ok p) :
    (∀ ns, lookupKey "namespace" m.groupLabels = some ns →
      (ns ++ pod).data <:+: p.markdown.text.data) ∧
    (lookupKey "namespace" m.groupLabels = none →
      ("The Pod " ++ pod ++ " is not scheduled").data <:+: p.markdown.text.data) := by
  unfold sendToDingtalkPure at hok
  cases hd : composeDescription m with
  | error e => rw [hd] at hok; simp at hok
  | ok d =>
    rw [hd] at hok
    simp only [Except.ok.injEq] at hok
    subst hok
    constructor
    · intro ns hns
      have hdesc : d = "\n > The Pod " ++ (ns ++ pod) ++ " is not scheduled\n\n" := by
        have := hd
        simp [composeDescription, ht, hp, hns, getLabel] at this
        exact this.symm
      rw [hdesc]
      refine ⟨("## HCaaS告警\n\n ### 告警组：" ++ getLabel m.commonLabels "group_id"
          ++ "（状态：" ++ m.status ++ ")\n\n").data ++ "\n > The Pod ".data,
        " is not scheduled\n\n".data ++ (renderAlerts m.alerts).data, ?_⟩
      simp [String.data_append, List.append_assoc]
    · intro hns
      have hdesc : d = "\n > The Pod " ++ pod ++ " is not scheduled\n\n" := by
        have := hd
        simp [composeDescription, ht, hp, hns, getLabel] at this
        exact this.symm
      rw [hdesc]
      refine ⟨("## HCaaS告警\n\n ### 告警组：" ++ getLabel m.commonLabels "group_id"
          ++ "（状态：" ++ m.status ++ ")\n\n").data ++ "\n > ".data,
        "\n\n".data ++ (renderAlerts m.alerts).data, ?_⟩
      simp [String.data_append, List.append_assoc]

theorem C6_witness :
    ("ns" ++ "pod1").data <:+:
      (forceOk (sendToDingtalkPure exPodMsg [] false)).markdown.text.data :=
  (C6_namespace_concatenation exPodMsg [] false
    (forceOk (sendToDingtalkPure exPodMsg [] false)) "pod1"
    (by decide) (by decide) (by decide)).1 "ns" (by decide)

/-- C7 counterexample: for a concrete message whose `groupKey` field is "A"
while `commonLabels["group_id"]` is "B", dispatch succeeds, yet the
envelope title is not "Alert group: {groupKey} (status: {status})" and the
body does not begin with that header either: the source builds both from
`commonLabels["group_id"]` with different Chinese-language format
strings. -/
theorem C7_counterexample :
    (sendToDingtalkPure exGroupKeyMsg [] false).isOk = true ∧
    envelopeTitle (sendToDingtalkPure exGroupKeyMsg [] false) ≠
      "Alert group: " ++ exGroupKeyMsg.groupKey ++ " (status: " ++ exGroupKeyMsg.status ++ ")" ∧
    ¬ (("Alert group: " ++ exGroupKeyMsg.groupKey ++ " (status: "
        ++ exGroupKeyMsg.status ++ ")").data <+:
      (envelopeText (sendToDingtalkPure exGroupKeyMsg [] false)).data) := by
  refine ⟨by decide, by decide, by decide⟩

/-- C7 as amended: for every message that passes validation, the body
begins with the header "## HCaaS告警\n\n ### 告警组：{g}（状态：{s})\n\n" and the
envelope title equals "HCaaS 告警组：{g}（状态：{s}）", where g is
`commonLabels["group_id"]` (empty string when absent) and s the message's
overall status. -/
theorem C7_header_and_title (m : Message) (am : List String) (ia : Bool)
    (p : DingTalkMarkdown)
    (hok : sendToDingtalkPure m am ia = .ok p) :
    p.markdown.title = "HCaaS 告警组：" ++ getLabel m.commonLabels "group_id"
      ++ "（状态：" ++ m.status ++ "）" ∧
    ∃ rest, p.markdown.text = ("## HCaaS告警\n\n ### 告警组："
      ++ getLabel m.commonLabels "group_id" ++ "（状态：" ++ m.status ++ ")\n\n") ++ rest := by
  unfold sendToDingtalkPure at hok
  cases hd : composeDescription m with
  | error e => rw [hd] at hok; simp at hok
  | ok d =>
    rw [hd] at hok
    simp only [Except.ok.injEq] at hok
    subst hok
    exact ⟨rfl, d ++ renderAlerts m.alerts, String.append_assoc _ _ _⟩

/-- If the alert_type is recognized but one of its required keys (per the
§4.1 table) is absent from the appropriate label map, the validation switch
returns a MissingField error. -/
theorem composeDescription_missing_key (m : Message) (t : String)
    (ht : lookupKey "alert_type" m.commonLabels = some t)
    (hmem : t ∈ recognizedTypes)
    (rk : Bool × String) (hrk : rk ∈ specRequiredKeys t)
    (hnone : lookupRequired m rk = none) :
    ∃ s, composeDescription m = .error (.missingField s) := by
  simp only [recognizedTypes, List.mem_cons, List.not_mem_nil, or_false] at hmem
  rcases hmem with rfl | rfl | rfl | rfl | rfl | rfl | rfl | rfl | rfl | rfl
  · simp only [specRequiredKeys, List.mem_cons, List.not_mem_nil, or_false,
      if_true, if_pos] at hrk
    rcases hrk with rfl | rfl
    · have hn : lookupKey "event_type" m.commonLabels = none := by
        simpa [lookupRequired] using hnone
      exact ⟨"event_type is null in commonLabels", by simp [composeDescription, ht, hn]⟩
    · have hn : lookupKey "resource_kind" m.groupLabels = none := by
        simpa [lookupRequired] using hnone
      cases h1 : lookupKey "event_type" m.commonLabels with
      | none => exact ⟨"event_type is null in commonLabels", by simp [composeDescription, ht, h1]⟩
      | some v =>
        exact ⟨"resource kind is null in groupLabels", by simp [composeDescription, ht, h1, hn]⟩
  · simp [specRequiredKeys] at hrk
    subst hrk
    have hn : lookupKey "component_name" m.groupLabels = none := by
      simpa [lookupRequired] using hnone
    exact ⟨"component name is null in groupLabels", by simp [composeDescription, ht, hn]⟩
  · simp [specRequiredKeys] at hrk
    subst hrk
    have hn : lookupKey "node_name" m.groupLabels = none := by
      simpa [lookupRequired] using hnone
    exact ⟨"node name name is null in groupLabels", by simp [composeDescription, ht, hn]⟩
  · simp [specRequiredKeys] at hrk
    rcases hrk with rfl | rfl
    · have hn : lookupKey "node_name" m.groupLabels = none := by
        simpa [lookupRequired] using hnone
      exact ⟨"node name name is null in groupLabels", by simp [composeDescription, ht, hn]⟩
    · have hn : lookupKey "cpu_threshold" m.commonLabels = none := by
        simpa [lookupRequired] using hnone
      cases h1 : lookupKey "node_name" m.groupLabels with
      | none => exact ⟨"node name name is null in groupLabels", by simp [composeDescription, ht, h1]⟩
      | some v =>
        exact ⟨"cpu threshold name is null in commonLabels",
          by simp [composeDescription, ht, h1, hn]⟩
  · simp [specRequiredKeys] at hrk
    rcases hrk with rfl | rfl
    · have hn : lookupKey "node_name" m.groupLabels = none := by
        simpa [lookupRequired] using hnone
      exact ⟨"node name name is null in groupLabels", by simp [composeDescription, ht, hn]⟩
    · have hn : lookupKey "mem_threshold" m.commonLabels = none := by
        simpa [lookupRequired] using hnone
      cases h1 : lookupKey "node_name" m.groupLabels with
      | none => exact ⟨"node name name is null in groupLabels", by simp [composeDescription, ht, h1]⟩
      | some v =>
        exact ⟨"mem threshold name is null in commonLabels",
          by simp [composeDescription, ht, h1, hn]⟩
  · simp [specRequiredKeys] at hrk
    subst hrk
    have hn : lookupKey "pod_name" m.groupLabels = none := by
      simpa [lookupRequired] using hnone
    exact ⟨"pod name name is null in groupLabels", by simp [composeDescription, ht, hn]⟩
  · simp [specRequiredKeys] at hrk
    subst hrk
    have hn : lookupKey "pod_name" m.groupLabels = none := by
      simpa [lookupRequired] using hnone
    exact ⟨"pod name name is null in groupLabels", by simp [composeDescription, ht, hn]⟩
  · simp [specRequiredKeys] at hrk
    rcases hrk with rfl | rfl | rfl
    · have hn : lookupKey "pod_name" m.groupLabels = none := by
        simpa [lookupRequired] using hnone
      exact ⟨"pod name name is null in groupLabels", by simp [composeDescription, ht, hn]⟩
    · have hn : lookupKey "restart_times" m.commonLabels = none := by
        simpa [lookupRequired] using hnone
      cases h1 : lookupKey "pod_name" m.groupLabels with
      | none => exact ⟨"pod name name is null in groupLabels", by simp [composeDescription, ht, h1]⟩
      | some v =>
        exact ⟨"restart times is null in commonLabels", by simp [composeDescription, ht, h1, hn]⟩
    · have hn : lookupKey "restart_interval" m.commonLabels = none := by
        simpa [lookupRequired] using hnone
      cases h1 : lookupKey "pod_name" m.groupLabels with
      | none => exact ⟨"pod name name is null in groupLabels", by simp [composeDescription, ht, h1]⟩
      | some v =>
        cases h2 : lookupKey "restart_times" m.commonLabels with
        | none =>
          exact ⟨"restart times is null in commonLabels",
            by simp [composeDescription, ht, h1, h2]⟩
        | some w =>
          exact ⟨"restart interval is null in commonLabels",
            by simp [composeDescription, ht, h1, h2, hn]⟩
  · simp [specRequiredKeys] at hrk
    rcases hrk with rfl | rfl
    · have hn : lookupKey "workload_name" m.groupLabels = none := by
        simpa [lookupRequired] using hnone
      exact ⟨"workload name is null in groupLabels", by simp [composeDescription, ht, hn]⟩
    · have hn : lookupKey "available_percentage" m.commonLabels = none := by
        simpa [lookupRequired] using hnone
      cases h1 : lookupKey "workload_name" m.groupLabels with
      | none => exact ⟨"workload name is null in groupLabels", by simp [composeDescription, ht, h1]⟩
      | some v =>
        exact ⟨"available percentage is null in commonLabels",
          by simp [composeDescription, ht, h1, hn]⟩
  · simp [specRequiredKeys] at hrk
    subst hrk
    have hn : lookupKey "alert_name" m.commonLabels = none := by
      simpa [lookupRequired] using hnone
    exact ⟨"alert name is null in commonLabels", by simp [composeDescription, ht, hn]⟩

/-- C1: if `commonLabels["alert_type"]` is absent, or the alert_type is
recognized but one of its required keys (per the §4.1 table) is absent from
the appropriate label map, dispatch fails with a MissingField error and the
outbound POST is never reached. -/
theorem C1_missing_field_no_post (m : Message) (am : List String) (ia : Bool)
    (net : PostOutcome)
    (h : lookupKey "alert_type" m.commonLabels = none ∨
      ∃ t, lookupKey "alert_type" m.commonLabels = some t ∧ t ∈ recognizedTypes ∧
        ∃ rk ∈ specRequiredKeys t, lookupRequired m rk = none) :
    ∃ s, sendToDingtalk m am ia net = (.error (.missingField s), false) := by
  have key : ∃ s, composeDescription m = .error (.missingField s) := by
    rcases h with h | ⟨t, ht, hmem, rk, hrk, hnone⟩
    · exact ⟨"alert type is null", by simp [composeDescription, h]⟩
    · exact composeDescription_missing_key m t ht hmem rk hrk hnone
  obtain ⟨s, hs⟩ := key
  exact ⟨s, by simp [sendToDingtalk, sendToDingtalkPure, hs]⟩

theorem C1_witness :
    ∃ s, sendToDingtalk exMissingKeyMsg [] false (.response 200)
      = (.error (.missingField s), false) :=
  C1_missing_field_no_post exMissingKeyMsg [] false (.response 200)
    (Or.inr ⟨"event", by decide, by decide, (true, "event_type"), by decide, by decide⟩)

/-- C2 counterexample: for a concrete event message the claim's literal
template "{event_type} event of {resource_kind} occurred" does not occur in
the composed description at all: the source's format string spells it
"occuored". -/
theorem C2_counterexample :
    composeDescription exEventMsg = .ok "\n > grow event of Pod occuored\n\n" ∧
    ¬ (("grow event of Pod occurred").data <:+: ("\n > grow event of Pod occuored\n\n").data) := by
  refine ⟨by decide, by decide⟩

/-- C2 as amended: for every recognized alert_type whose required keys (per
the §4.1 table) are all present, dispatch produces no validation error and
the composed description is exactly the table's template framed by the
source's markdown quote decoration, with the event template spelled
"occuored" as in the source. -/
theorem C2_templates_hold (m : Message) (t : String)
    (ht : lookupKey "alert_type" m.commonLabels = some t)
    (hmem : t ∈ recognizedTypes)
    (hreq : ∀ rk ∈ specRequiredKeys t, lookupRequired m rk ≠ none) :
    composeDescription m = .ok ("\n > " ++ specTemplate t m ++ "\n\n") := by
  simp only [recognizedTypes, List.mem_cons, List.not_mem_nil, or_false] at hmem
  rcases hmem with rfl | rfl | rfl | rfl | rfl | rfl | rfl | rfl | rfl | rfl
  · have h1 : lookupKey "event_type" m.commonLabels ≠ none := by
      simpa [lookupRequired] using hreq (true, "event_type") (by decide)
    have h2 : lookupKey "resource_kind" m.groupLabels ≠ none := by
      simpa [lookupRequired] using hreq (false, "resource_kind") (by decide)
    obtain ⟨v1, hv1⟩ := Option.ne_none_iff_exists'.mp h1
    obtain ⟨v2, hv2⟩ := Option.ne_none_iff_exists'.mp h2
    simp [composeDescription, specTemplate, ht, hv1, hv2, getLabel]
    apply strEqOfData
    simp [String.data_append, List.append_assoc]
  · have h1 : lookupKey "component_name" m.groupLabels ≠ none := by
      simpa [lookupRequired] using hreq (false, "component_name") (by decide)
    obtain ⟨v1, hv1⟩ := Option.ne_none_iff_exists'.mp h1
    simp [composeDescription, specTemplate, ht, hv1, getLabel]
    apply strEqOfData
    simp [String.data_append, List.append_assoc]
  · have h1 : lookupKey "node_name" m.groupLabels ≠ none := by
      simpa [lookupRequired] using hreq (false, "node_name") (by decide)
    obtain ⟨v1, hv1⟩ := Option.ne_none_iff_exists'.mp h1
    simp [composeDescription, specTemplate, ht, hv1, getLabel]
    apply strEqOfData
    simp [String.data_append, List.append_assoc]
  · have h1 : lookupKey "node_name" m.groupLabels ≠ none := by
      simpa [lookupRequired] using hreq (false, "node_name") (by decide)
    have h2 : lookupKey "cpu_threshold" m.commonLabels ≠ none := by
      simpa [lookupRequired] using hreq (true, "cpu_threshold") (by decide)
    obtain ⟨v1, hv1⟩ := Option.ne_none_iff_exists'.mp h1
    obtain ⟨v2, hv2⟩ := Option.ne_none_iff_exists'.mp h2
    simp [composeDescription, specTemplate, ht, hv1, hv2, getLabel]
    apply strEqOfData
    simp [String.data_append, List.append_assoc]
  · have h1 : lookupKey "node_name" m.groupLabels ≠ none := by
      simpa [lookupRequired] using hreq (false, "node_name") (by decide)
    have h2 : lookupKey "mem_threshold" m.commonLabels ≠ none := by
      simpa [lookupRequired] using hreq (true, "mem_threshold") (by decide)
    obtain ⟨v1, hv1⟩ := Option.ne_none_iff_exists'.mp h1
    obtain ⟨v2, hv2⟩ := Option.ne_none_iff_exists'.mp h2
    simp [composeDescription, specTemplate, ht, hv1, hv2, getLabel]
    apply strEqOfData
    simp [String.data_append, List.append_assoc]
  · have h1 : lookupKey "pod_name" m.groupLabels ≠ none := by
      simpa [lookupRequired] using hreq (false, "pod_name") (by decide)
    obtain ⟨v1, hv1⟩ := Option.ne_none_iff_exists'.mp h1
    cases hns : lookupKey "namespace" m.groupLabels with
    | none =>
      simp [composeDescription, specTemplate, specNsName, ht, hv1, hns, getLabel]
      apply strEqOfData
      simp [String.data_append, List.append_assoc]
    | some ns =>
      simp [composeDescription, specTemplate, specNsName, ht, hv1, hns, getLabel]
      apply strEqOfData
      simp [String.data_append, List.append_assoc]
  · have h1 : lookupKey "pod_name" m.groupLabels ≠ none := by
      simpa [lookupRequired] using hreq (false, "pod_name") (by decide)
    obtain ⟨v1, hv1⟩ := Option.ne_none_iff_exists'.mp h1
    cases hns : lookupKey "namespace" m.groupLabels with
    | none =>
      simp [composeDescription, specTemplate, specNsName, ht, hv1, hns, getLabel]
      apply strEqOfData
      simp [String.data_append, List.append_assoc]
    | some ns =>
      simp [composeDescription, specTemplate, specNsName, ht, hv1, hns, getLabel]
      apply strEqOfData
      simp [String.data_append, List.append_assoc]
  · have h1 : lookupKey "pod_name" m.groupLabels ≠ none := by
      simpa [lookupRequired] using hreq (false, "pod_name") (by decide)
    have h2 : lookupKey "restart_times" m.commonLabels ≠ none := by
      simpa [lookupRequired] using hreq (true, "restart_times") (by decide)
    have h3 : lookupKey "restart_interval" m.commonLabels ≠ none := by
      simpa [lookupRequired] using hreq (true, "restart_interval") (by decide)
    obtain ⟨v1, hv1⟩ := Option.ne_none_iff_exists'.mp h1
    obtain ⟨v2, hv2⟩ := Option.ne_none_iff_exists'.mp h2
    obtain ⟨v3, hv3⟩ := Option.ne_none_iff_exists'.mp h3
    cases hns : lookupKey "namespace" m.groupLabels with
    | none =>
      simp [composeDescription, specTemplate, specNsName, ht, hv1, hv2, hv3, hns, getLabel]
      apply strEqOfData
      simp [String.data_append, List.append_assoc]
    | some ns =>
      simp [composeDescription, specTemplate, specNsName, ht, hv1, hv2, hv3, hns, getLabel]
      apply strEqOfData
      simp [String.data_append, List.append_assoc]
  · have h1 : lookupKey "workload_name" m.groupLabels ≠ none := by
      simpa [lookupRequired] using hreq (false, "workload_name") (by decide)
    have h2 : lookupKey "available_percentage" m.commonLabels ≠ none := by
      simpa [lookupRequired] using hreq (true, "available_percentage") (by decide)
    obtain ⟨v1, hv1⟩ := Option.ne_none_iff_exists'.mp h1
    obtain ⟨v2, hv2⟩ := Option.ne_none_iff_exists'.mp h2
    cases hns : lookupKey "workload_namespace" m.groupLabels with
    | none =>
      simp [composeDescription, specTemplate, specNsName, ht, hv1, hv2, hns, getLabel]
      apply strEqOfData
      simp [String.data_append, List.append_assoc]
    | some ns =>
      simp [composeDescription, specTemplate, specNsName, ht, hv1, hv2, hns, getLabel]
      apply strEqOfData
      simp [String.data_append, List.append_assoc]
  · have h1 : lookupKey "alert_name" m.commonLabels ≠ none := by
      simpa [lookupRequired] using hreq (true, "alert_name") (by decide)
    obtain ⟨v1, hv1⟩ := Option.ne_none_iff_exists'.mp h1
    simp [composeDescription, specTemplate, ht, hv1, getLabel]
    apply strEqOfData
    simp [String.data_append, List.append_assoc]

theorem C2_witness :
    composeDescription exMetricMsg = .ok ("\n > " ++ specTemplate "metric" exMetricMsg ++ "\n\n") :=
  C2_templates_hold exMetricMsg "metric" (by decide) (by decide) (by decide)

theorem C7_witness :
    (forceOk (sendToDingtalkPure exMetricMsg [] false)).markdown.title =
      "HCaaS 告警组：" ++ getLabel exMetricMsg.commonLabels "group_id"
        ++ "（状态：" ++ exMetricMsg.status ++ "）" :=
  (C7_header_and_title exMetricMsg [] false
    (forceOk (sendToDingtalkPure exMetricMsg [] false)) (by decide)).1
